import Mathlib

/-!
Verification of the BMM beamline instrument repository (bmm-nsls-bits).

The development shallowly embeds the parts of the repository that the claims
touch:

* the mock/live construction logic shared by every device module
  (`src/bmm_instrument/devices/{motors,optics,temperature,detectors,
  sample_environment}.py`): environment-flag detection, the try/except
  fallback around the hardware connection, and the `is_mock` property;
* the `BMMDCM` energy/angle conversion (`optics.py`), modelled over `ℝ`
  (Python floats are idealised as real numbers; `np.arcsin` is modelled by
  `Real.arcsin`, which clamps its argument to `[-1, 1]` where numpy would
  produce NaN — at every such point the claims under examination fail in
  both semantics, since every comparison with NaN is false);
* the XAFS plan functions (`plans/xafs_plans.py`), modelled over `ℚ`
  (all arithmetic there is +, *, /, `np.arange` and list concatenation, so
  the rational model is exact and executable); Python exceptions are
  modelled with `Except`, with the raised `ValueError` messages kept.

State-mutating methods are embedded as explicit state-passing functions;
a method that the source never lets raise (every body is wrapped in
`try/except` that only logs) is embedded as a total function.
-/

namespace BMM

/-- Environment variables read by the mock-mode detection in every device
module: `os.environ.get("BMM_MOCK_MODE", "NO")` and
`os.environ.get("RUNNING_IN_NSLS2_CI", "NO")`. -/
structure Env where
  bmm_mock_mode : String
  running_in_nsls2_ci : String

/-- Mock-mode detection, repeated verbatim at the top of `__init__` in
`motors.py`, `optics.py`, `temperature.py`, `detectors.py` and
`sample_environment.py`:
`os.environ.get("BMM_MOCK_MODE", "NO") == "YES" or
 os.environ.get("RUNNING_IN_NSLS2_CI", "NO") == "YES"`. -/
def mock_mode_detect (env : Env) : Bool :=
  env.bmm_mock_mode == "YES" || env.running_in_nsls2_ci == "YES"

/-- Outcome of the `super().__init__(prefix, ...)` hardware-connection
attempt (the ophyd call is external to the repository; the embedding only
needs whether it raises). -/
inductive ConnectOutcome
  | ok
  | fails

/-- The `_mock_mode` flag every device constructor computes: if the
environment selects mock mode the connection is never attempted and the flag
is `True`; otherwise the connection is tried and on any exception the
`except` branch sets `self._mock_mode = True`.  This `if/try/except` shape is
repeated verbatim in `BMMMotor.__init__`, `BMMOpticsBase.__init__`,
`BMMTemperatureBase.__init__`, `BMMDetectorBase.__init__` and
`BMMSampleEnvironmentBase.__init__`. -/
def init_mock_flag (env : Env) (conn : ConnectOutcome) : Bool :=
  if mock_mode_detect env then true
  else match conn with
    | .ok => false
    | .fails => true

/-- State of a `BMMMotor` (`motors.py`): the `_mock_mode` flag, the limit
attributes touched by `set_limits`, and the `hvel_sp` setting written by
`FMBOMotor.__init__` in live mode. -/
structure MotorState where
  mock_mode : Bool
  low_limit : Option ℚ
  high_limit : Option ℚ
  hvel_sp : Option ℚ

/-- Property `BMMMotor.is_mock`. -/
def MotorState.is_mock (s : MotorState) : Bool := s.mock_mode

/-- Constructor `BMMMotor.__init__` (`motors.py` lines 26-47). -/
def BMMMotor_init (env : Env) (conn : ConnectOutcome) : MotorState :=
  { mock_mode := init_mock_flag env conn
    low_limit := none
    high_limit := none
    hvel_sp := none }

/-- Method `BMMMotor.set_limits`: in mock mode it returns immediately; in
live mode each limit that is not `None` is assigned (the surrounding
`try/except` only logs). -/
def MotorState.set_limits (s : MotorState) (low high : Option ℚ) : MotorState :=
  if s.is_mock then s
  else
    let s1 := match low with
      | some v => { s with low_limit := some v }
      | none => s
    match high with
    | some v => { s1 with high_limit := some v }
    | none => s1

/-- Constructor `XAFSMotor.__init__`: delegates to `BMMMotor.__init__`, then
calls `set_limits` when not mock and both defaults are given. -/
def XAFSMotor_init (env : Env) (conn : ConnectOutcome)
    (default_llm default_hlm : Option ℚ) : MotorState :=
  let s := BMMMotor_init env conn
  if !s.is_mock && default_llm.isSome && default_hlm.isSome then
    s.set_limits default_llm default_hlm
  else s

/-- Constructor `FMBOMotor.__init__`: delegates to `BMMMotor.__init__`, then
in live mode puts the default high velocity `0.05` to `hvel_sp`. -/
def FMBOMotor_init (env : Env) (conn : ConnectOutcome) : MotorState :=
  let s := BMMMotor_init env conn
  if !s.is_mock then { s with hvel_sp := some (0.05 : ℚ) } else s

/-- Constructor `EndStationMotor.__init__`: a bare delegation to
`BMMMotor.__init__`. -/
def EndStationMotor_init (env : Env) (conn : ConnectOutcome) : MotorState :=
  BMMMotor_init env conn

/-- Constructor `EncodedMotor.__init__`: a bare delegation to
`BMMMotor.__init__`. -/
def EncodedMotor_init (env : Env) (conn : ConnectOutcome) : MotorState :=
  BMMMotor_init env conn

/-- State of the base class `BMMOpticsBase` (`optics.py`): only the
`_mock_mode` flag. -/
structure OpticsState where
  mock_mode : Bool

/-- Property `BMMOpticsBase.is_mock`. -/
def OpticsState.is_mock (s : OpticsState) : Bool := s.mock_mode

/-- Constructor `BMMOpticsBase.__init__` (`optics.py` lines 22-44). -/
def BMMOpticsBase_init (env : Env) (conn : ConnectOutcome) : OpticsState :=
  { mock_mode := init_mock_flag env conn }

/-- State of a `BMMMirror`: the base flag, the `has_bender` attribute, and
the bender motor created in live mode when requested. -/
structure MirrorState where
  mock_mode : Bool
  has_bender : Bool
  bender : Option MotorState

/-- Property `BMMMirror.is_mock` (inherited from `BMMOpticsBase`). -/
def MirrorState.is_mock (s : MirrorState) : Bool := s.mock_mode

/-- Constructor `BMMMirror.__init__`: base construction, then a bender
`FMBOMotor` is added only when `has_bender and not self.is_mock`. -/
def BMMMirror_init (env : Env) (conn : ConnectOutcome) (has_bender : Bool) :
    MirrorState :=
  let flag := init_mock_flag env conn
  { mock_mode := flag
    has_bender := has_bender
    bender := if has_bender && !flag then some (FMBOMotor_init env conn) else none }

/-- Method `BMMMirror.align`: in mock mode it logs and returns; in live mode
it only logs for the known modes, and the `ValueError` raised for an unknown
mode is caught by the surrounding `except`, which logs.  No attribute is
written on any path, so the state is returned unchanged. -/
def MirrorState.align (s : MirrorState) (_mode : String) : MirrorState := s

/-- State of the `BMMDCM` monochromator: the base flag, the three energy
calibration attributes set by `BMMDCM.__init__`, and the bragg motor
position moved by `set_energy`.  The `d_spacing_111`, `d_spacing_311` and
`bragg` values are rationals (Python float literals, modelled exactly); the
floating-point trigonometry lives in the conversion functions over `ℝ`. -/
structure DCMState where
  mock_mode : Bool
  d_spacing_111 : ℚ
  d_spacing_311 : ℚ
  current_reflection : String
  bragg : ℝ

/-- Property `BMMDCM.is_mock` (inherited from `BMMOpticsBase`). -/
def DCMState.is_mock (s : DCMState) : Bool := s.mock_mode

/-- Constructor `BMMDCM.__init__` (`optics.py` lines 130-136): base
construction, then `d_spacing_111 = 3.13557`, `d_spacing_311 = 1.6374`,
`current_reflection = "111"`. -/
def BMMDCM_init (env : Env) (conn : ConnectOutcome) : DCMState :=
  { mock_mode := init_mock_flag env conn
    d_spacing_111 := 3.13557
    d_spacing_311 := 1.6374
    current_reflection := "111"
    bragg := 0 }

/-- Selection of the d-spacing used by both conversions (`optics.py` lines
160-161 and 193-194): `self.d_spacing_111 if self.current_reflection ==
"111" else self.d_spacing_311`. -/
def dSpacing (s : DCMState) : ℚ :=
  if s.current_reflection = "111" then s.d_spacing_111 else s.d_spacing_311

/-- Conversion `np.degrees`: radians to degrees. -/
noncomputable def np_degrees (x : ℝ) : ℝ := x * 180 / Real.pi

/-- Conversion `np.radians`: degrees to radians. -/
noncomputable def np_radians (x : ℝ) : ℝ := x * Real.pi / 180

/-- Method `BMMDCM.energy_to_bragg` (`optics.py` lines 143-174):
`wavelength = 12398.4 / energy_ev`, `sin_theta = wavelength / (2 *
d_spacing)`, `raise ValueError` when `sin_theta > 1` (modelled by `none`),
otherwise `degrees(arcsin(sin_theta))`.  The method reads
`self.current_reflection` and the d-spacings and writes nothing. -/
noncomputable def energy_to_bragg (s : DCMState) (energy_ev : ℝ) : Option ℝ :=
  let wavelength := 12398.4 / energy_ev
  let sin_theta := wavelength / (2 * (dSpacing s : ℝ))
  if 1 < sin_theta then none
  else some (np_degrees (Real.arcsin sin_theta))

/-- Method `BMMDCM.bragg_to_energy` (`optics.py` lines 176-200):
`12398.4 / (2 * d_spacing * sin(radians(bragg_deg)))`. -/
noncomputable def bragg_to_energy (s : DCMState) (bragg_deg : ℝ) : ℝ :=
  12398.4 / (2 * (dSpacing s : ℝ) * Real.sin (np_radians bragg_deg))

/-- Method call `BMMDCM.energy_to_bragg` as a state transformer: the source
method contains no assignment to `self`, so the embedding pairs the returned
value with the unchanged device state. -/
noncomputable def energy_to_bragg_call (s : DCMState) (energy_ev : ℝ) :
    Option ℝ × DCMState :=
  (energy_to_bragg s energy_ev, s)

/-- Method call `BMMDCM.bragg_to_energy` as a state transformer: the source
method contains no assignment to `self`. -/
noncomputable def bragg_to_energy_call (s : DCMState) (bragg_deg : ℝ) :
    ℝ × DCMState :=
  (bragg_to_energy s bragg_deg, s)

/-- Method `BMMDCM.set_energy`: in mock mode it logs and returns; in live
mode it converts and moves the bragg motor, and a `ValueError` from the
conversion is caught by the surrounding `except`, which logs. -/
noncomputable def DCMState.set_energy (s : DCMState) (energy_ev : ℝ) : DCMState :=
  if s.is_mock then s
  else match energy_to_bragg s energy_ev with
    | none => s
    | some theta => { s with bragg := theta }

/-- State of a `BMMSlits` device: the base flag and the four blade
positions. -/
structure SlitsState where
  mock_mode : Bool
  inboard : ℚ
  outboard : ℚ
  top : ℚ
  bottom : ℚ

/-- Property `BMMSlits.is_mock` (inherited from `BMMOpticsBase`). -/
def SlitsState.is_mock (s : SlitsState) : Bool := s.mock_mode

/-- Constructor `BMMSlits.__init__` (the base constructor; blade positions
start at the mock axes' default `0`). -/
def BMMSlits_init (env : Env) (conn : ConnectOutcome) : SlitsState :=
  { mock_mode := init_mock_flag env conn
    inboard := 0, outboard := 0, top := 0, bottom := 0 }

/-- Property `BMMSlits.hcenter`: `0.0` in mock mode, else the mean of the
outboard and inboard positions. -/
def SlitsState.hcenter (s : SlitsState) : ℚ :=
  if s.is_mock then 0 else (s.outboard + s.inboard) / 2

/-- Property `BMMSlits.vcenter`: `0.0` in mock mode, else the mean of the
top and bottom positions. -/
def SlitsState.vcenter (s : SlitsState) : ℚ :=
  if s.is_mock then 0 else (s.top + s.bottom) / 2

/-- Method `BMMSlits.set_size`: in mock mode it logs and returns; in live
mode each requested size moves the corresponding blade pair symmetrically
about the current center. -/
def SlitsState.set_size (s : SlitsState) (hsize vsize : Option ℚ) : SlitsState :=
  if s.is_mock then s
  else
    let s1 := match hsize with
      | some h =>
          let c := s.hcenter
          { s with outboard := c + h / 2, inboard := c - h / 2 }
      | none => s
    match vsize with
    | some v =>
        let c := s1.vcenter
        { s1 with top := c + v / 2, bottom := c - v / 2 }
    | none => s1

/-- State of a `BMMShutter`: the base flag, the status signal and the two
command signals. -/
structure ShutterState where
  mock_mode : Bool
  status : ℚ
  open_cmd : ℚ
  close_cmd : ℚ

/-- Property `BMMShutter.is_mock` (inherited from `BMMOpticsBase`). -/
def ShutterState.is_mock (s : ShutterState) : Bool := s.mock_mode

/-- Constructor `BMMShutter.__init__` (the base constructor; signals start
at `0`). -/
def BMMShutter_init (env : Env) (conn : ConnectOutcome) : ShutterState :=
  { mock_mode := init_mock_flag env conn
    status := 0, open_cmd := 0, close_cmd := 0 }

/-- Method `BMMShutter.open`: in mock mode `status.set(1)`, in live mode
`open_cmd.put(1)` (exceptions are caught and logged). -/
def shutter_open (s : ShutterState) : ShutterState :=
  if s.is_mock then { s with status := 1 } else { s with open_cmd := 1 }

/-- Method `BMMShutter.close`: in mock mode `status.set(0)`, in live mode
`close_cmd.put(1)` (exceptions are caught and logged). -/
def shutter_close (s : ShutterState) : ShutterState :=
  if s.is_mock then { s with status := 0 } else { s with close_cmd := 1 }

/-- State of the base class `BMMTemperatureBase` (`temperature.py`). -/
structure TempBaseState where
  mock_mode : Bool

/-- Property `BMMTemperatureBase.is_mock`. -/
def TempBaseState.is_mock (s : TempBaseState) : Bool := s.mock_mode

/-- Constructor `BMMTemperatureBase.__init__` (`temperature.py` lines
22-44). -/
def BMMTemperatureBase_init (env : Env) (conn : ConnectOutcome) : TempBaseState :=
  { mock_mode := init_mock_flag env conn }

/-- State of a `BMMLakeShore331` controller: the base flag, the setpoint and
sensor signals and the `_target_temp` attribute. -/
structure LakeShoreState where
  mock_mode : Bool
  setpoint : ℚ
  temp_a : ℚ
  temp_b : ℚ
  target_temp : ℚ

/-- Property `BMMLakeShore331.is_mock` (inherited). -/
def LakeShoreState.is_mock (s : LakeShoreState) : Bool := s.mock_mode

/-- Constructor `BMMLakeShore331.__init__`: base construction, then
`_target_temp = 300.0` (signals start at `0`). -/
def BMMLakeShore331_init (env : Env) (conn : ConnectOutcome) : LakeShoreState :=
  { mock_mode := init_mock_flag env conn
    setpoint := 0, temp_a := 0, temp_b := 0
    target_temp := 300 }

/-- Method `BMMLakeShore331.set_temperature`: in mock mode the setpoint and
both sensors are set to the target; in live mode the setpoint signal and
`_target_temp` are written (and `wait_for_temperature`, which only reads and
logs, may poll). -/
def LakeShoreState.set_temperature (s : LakeShoreState) (target : ℚ)
    (_wait : Bool) : LakeShoreState :=
  if s.is_mock then { s with setpoint := target, temp_a := target, temp_b := target }
  else { s with setpoint := target, target_temp := target }

/-- State of the base class `BMMDetectorBase` (`detectors.py`). -/
structure DetectorBaseState where
  mock_mode : Bool

/-- Property `BMMDetectorBase.is_mock`. -/
def DetectorBaseState.is_mock (s : DetectorBaseState) : Bool := s.mock_mode

/-- Constructor `BMMDetectorBase.__init__` (`detectors.py` lines 23-45). -/
def BMMDetectorBase_init (env : Env) (conn : ConnectOutcome) : DetectorBaseState :=
  { mock_mode := init_mock_flag env conn }

/-- State of the base class `BMMSampleEnvironmentBase`
(`sample_environment.py`). -/
structure SampleEnvBaseState where
  mock_mode : Bool

/-- Property `BMMSampleEnvironmentBase.is_mock`. -/
def SampleEnvBaseState.is_mock (s : SampleEnvBaseState) : Bool := s.mock_mode

/-- Constructor `BMMSampleEnvironmentBase.__init__`
(`sample_environment.py` lines 26-49). -/
def BMMSampleEnvironmentBase_init (env : Env) (conn : ConnectOutcome) :
    SampleEnvBaseState :=
  { mock_mode := init_mock_flag env conn }

/-- Python exceptions arising in `plans/xafs_plans.py`: every explicit
raise there is a `ValueError` (the message is kept to tell the raise sites
apart), and `np.arange` raises `ZeroDivisionError` on a zero step. -/
inductive PyErr
  | valueError (msg : String)
  | zeroDivisionError (msg : String)
deriving DecidableEq

/-- Builtin `min` over a Python list: raises
`ValueError: min() arg is an empty sequence` on an empty list. -/
def pymin (l : List ℚ) : Except PyErr ℚ :=
  match l with
  | [] => Except.error (PyErr.valueError "min() arg is an empty sequence")
  | x :: xs => Except.ok (xs.foldl min x)

/-- Builtin `max` over a Python list: raises
`ValueError: max() arg is an empty sequence` on an empty list. -/
def pymax (l : List ℚ) : Except PyErr ℚ :=
  match l with
  | [] => Except.error (PyErr.valueError "max() arg is an empty sequence")
  | x :: xs => Except.ok (xs.foldl max x)

/-- Test for the error case of an `Except`. -/
def isErr {α : Type} (e : Except PyErr α) : Bool :=
  match e with
  | Except.error _ => true
  | Except.ok _ => false

/-- Points of `np.arange(start, stop, step)` for a nonzero step: the
arithmetic progression `start + i * step` with `ceil((stop - start) /
step)` points (clamped at zero), which for a positive step is exactly the
half-open range `[start, stop)`. -/
def arange_points (start stop step : ℚ) : List ℚ :=
  (List.range (Int.ceil ((stop - start) / step)).toNat).map
    fun i : ℕ => start + (i : ℚ) * step

/-- Function `np.arange(start, stop, step)`: raises `ZeroDivisionError`
when the step is zero (the length computation divides by it), otherwise
yields the `arange_points` progression. -/
def arange (start stop step : ℚ) : Except PyErr (List ℚ) :=
  if step = 0 then Except.error (PyErr.zeroDivisionError "division by zero")
  else Except.ok (arange_points start stop step)

/-- Metadata recorded by `xafs_scan` via `md.update` (`xafs_plans.py` lines
44-53; the detector and motor names, which depend only on the device
objects, are not modelled). -/
structure ScanMd where
  plan_name : String
  energy_points : Nat
  energy_start : ℚ
  energy_stop : ℚ
deriving DecidableEq

/-- What one run of the `xafs_scan` generator computes and hands to
`list_scan`: the metadata, the dwell-time list it settled on, and the
position list. -/
structure ScanRun where
  md : ScanMd
  dwelltimes : List ℚ
  positions : List ℚ
deriving DecidableEq

/-- Defaulting of the dwell list (`xafs_plans.py` lines 38-39):
`if dwelltime_list is None: dwelltime_list = [1.0] * len(energy_list)`. -/
def default_dwell (energy_list : List ℚ) (dwelltime_list : Option (List ℚ)) :
    List ℚ :=
  match dwelltime_list with
  | none => List.replicate energy_list.length (1 : ℚ)
  | some d => d

/-- Conditional conversion of energies to motor positions (`xafs_plans.py`
lines 56-59): the comprehension `[energy_to_bragg(e) for e in energy_list]`
when the motor has that attribute (`conv = some f`), the energy list
unchanged otherwise.  The motor method may itself raise (the repository's
DCM raises `ValueError` for out-of-range energies), so the conversion is a
fallible `ℚ → Except PyErr ℚ` and the comprehension propagates the first
failure, as `List.mapM` does. -/
def position_list (conv : Option (ℚ → Except PyErr ℚ)) (energy_list : List ℚ) :
    Except PyErr (List ℚ) :=
  match conv with
  | some f => energy_list.mapM f
  | none => Except.ok energy_list

/-- Plan `xafs_scan` (`xafs_plans.py` lines 18-61), body order preserved:
default the dwell list to `[1.0] * len(energy_list)` when omitted, raise on
a length mismatch, update the metadata (where `min`/`max` of the energy
list can raise on an empty list), then convert energies to positions with
`energy_to_bragg` when the motor has that attribute and pass everything to
`list_scan`.  The motor's conversion method is abstracted as `conv` —
`some f` when `hasattr(energy_motor, "energy_to_bragg")`, `none`
otherwise. -/
def xafs_scan (conv : Option (ℚ → Except PyErr ℚ)) (energy_list : List ℚ)
    (dwelltime_list : Option (List ℚ)) : Except PyErr ScanRun :=
  let dwell := default_dwell energy_list dwelltime_list
  if energy_list.length ≠ dwell.length then
    Except.error (PyErr.valueError "Energy list and dwelltime list must have same length")
  else
    match pymin energy_list, pymax energy_list with
    | Except.ok emin, Except.ok emax =>
        match position_list conv energy_list with
        | Except.ok pos =>
            Except.ok
              { md := { plan_name := "xafs_scan"
                        energy_points := energy_list.length
                        energy_start := emin
                        energy_stop := emax }
                dwelltimes := dwell
                positions := pos }
        | Except.error e => Except.error e
    | Except.error e, _ => Except.error e
    | _, Except.error e => Except.error e

/-- Metadata recorded by `xafs_step_scan` via `md.update` (`xafs_plans.py`
lines 106-114). -/
structure StepScanMd where
  plan_name : String
  pre_edge_points : Nat
  edge_points : Nat
  post_edge_points : Nat
  total_points : Nat
deriving DecidableEq

/-- Plan `xafs_step_scan` (`xafs_plans.py` lines 64-116): builds the three
`np.arange` regions (any of which raises `ZeroDivisionError` on a zero
step), concatenates them into `energy_list`, records the region point
counts in the metadata, and delegates to `xafs_scan` with no dwell list,
propagating whatever that raises. -/
def xafs_step_scan (conv : Option (ℚ → Except PyErr ℚ))
    (pre_edge_start pre_edge_stop pre_edge_step
     edge_start edge_stop edge_step
     post_edge_start post_edge_stop post_edge_step : ℚ) :
    Except PyErr (StepScanMd × ScanRun) :=
  match arange pre_edge_start pre_edge_stop pre_edge_step,
        arange edge_start edge_stop edge_step,
        arange post_edge_start post_edge_stop post_edge_step with
  | Except.ok pre_edge, Except.ok edge, Except.ok post_edge =>
      let energy_list := pre_edge ++ edge ++ post_edge
      let md : StepScanMd :=
        { plan_name := "xafs_step_scan"
          pre_edge_points := pre_edge.length
          edge_points := edge.length
          post_edge_points := post_edge.length
          total_points := energy_list.length }
      match xafs_scan conv energy_list none with
      | Except.ok r => Except.ok (md, r)
      | Except.error e => Except.error e
  | Except.error e, _, _ => Except.error e
  | _, Except.error e, _ => Except.error e
  | _, _, Except.error e => Except.error e

/-- Claim-side characterisation of one scan region: `l` is the half-open
arithmetic range `[start, stop)` with the given step. -/
def half_open_range (start stop step : ℚ) (l : List ℚ) : Prop :=
  ∀ x, x ∈ l ↔ ∃ i : ℕ, x = start + (i : ℚ) * step ∧ x < stop

/-- Claim-side d-spacing for `BMMDCM` conversions: `3.13557` Angstroms for
the `"111"` reflection and `1.6374` Angstroms otherwise, as the spec words
it. -/
noncomputable def claimed_d_spacing (reflection : String) : ℝ :=
  if reflection = "111" then 3.13557 else 1.6374

/-- Environment with `BMM_MOCK_MODE=YES` (what `test_devices.py` sets). -/
def env_mock : Env := { bmm_mock_mode := "YES", running_in_nsls2_ci := "NO" }

/-- Environment with neither mock flag set: live mode. -/
def env_live : Env := { bmm_mock_mode := "NO", running_in_nsls2_ci := "NO" }

/-- A DCM constructed in mock mode, as in `test_devices.py`. -/
def dcm0 : DCMState := BMMDCM_init env_mock ConnectOutcome.ok

/-- A DCM constructed in live mode whose connection attempt failed. -/
def dcm_fallback : DCMState := BMMDCM_init env_live ConnectOutcome.fails

/-- A DCM whose `current_reflection` attribute has been switched to the
`"311"` reflection that `d_spacing_311` exists for. -/
def dcm311 : DCMState := { dcm0 with current_reflection := "311" }

/-! ## Theorems -/

/-- Claim C5: for the device base classes (motors, optics, temperature
controllers), construction in live mode with a failing hardware connection
does not propagate the failure — the constructor (a total function in this
embedding, mirroring the `try/except` that catches every exception and
logs) substitutes a mock device, so `is_mock` is `True`. -/
theorem live_failure_substitutes_mock (env : Env)
    (h : mock_mode_detect env = false) :
    (BMMMotor_init env ConnectOutcome.fails).is_mock = true ∧
    (BMMOpticsBase_init env ConnectOutcome.fails).is_mock = true ∧
    (BMMTemperatureBase_init env ConnectOutcome.fails).is_mock = true := by
  refine ⟨?_, ?_, ?_⟩ <;>
    simp [BMMMotor_init, BMMOpticsBase_init, BMMTemperatureBase_init,
      MotorState.is_mock, OpticsState.is_mock, TempBaseState.is_mock,
      init_mock_flag, h]

/-- Witness for C5 at the concrete live environment. -/
theorem live_failure_substitutes_mock_witness :
    mock_mode_detect env_live = false ∧
    ((BMMMotor_init env_live ConnectOutcome.fails).is_mock = true ∧
     (BMMOpticsBase_init env_live ConnectOutcome.fails).is_mock = true ∧
     (BMMTemperatureBase_init env_live ConnectOutcome.fails).is_mock = true) :=
  ⟨rfl, live_failure_substitutes_mock env_live rfl⟩

/-- Claim C6: the mock/live flag is fixed at construction — no operation of
the repository (limit setting, mirror alignment, energy setting,
temperature setting, shutter open/close, slit moves) changes the value of
`is_mock`; in particular a mock device never becomes live. -/
theorem is_mock_fixed_after_construction
    (m : MotorState) (lo hi : Option ℚ) (mir : MirrorState) (mode : String)
    (dcm : DCMState) (energy : ℝ) (ls : LakeShoreState) (target : ℚ)
    (w : Bool) (sh : ShutterState) (sl : SlitsState) (hs vs : Option ℚ) :
    (m.set_limits lo hi).is_mock = m.is_mock ∧
    (mir.align mode).is_mock = mir.is_mock ∧
    (dcm.set_energy energy).is_mock = dcm.is_mock ∧
    (ls.set_temperature target w).is_mock = ls.is_mock ∧
    (shutter_open sh).is_mock = sh.is_mock ∧
    (shutter_close sh).is_mock = sh.is_mock ∧
    (sl.set_size hs vs).is_mock = sl.is_mock := by
  refine ⟨?_, rfl, ?_, ?_, ?_, ?_, ?_⟩
  · unfold MotorState.set_limits
    split
    · rfl
    · cases lo <;> cases hi <;> rfl
  · unfold DCMState.set_energy
    split
    · rfl
    · split <;> rfl
  · unfold LakeShoreState.set_temperature
    split <;> rfl
  · unfold shutter_open
    split <;> rfl
  · unfold shutter_close
    split <;> rfl
  · unfold SlitsState.set_size
    split
    · rfl
    · cases hs <;> cases vs <;> rfl

/-- Claim C7: with a mock-mode environment flag set (`BMM_MOCK_MODE=YES` or
`RUNNING_IN_NSLS2_CI=YES`), every device class constructs (a total
function in this embedding) with `is_mock` equal to `True`, whatever the
hardware connection would have done. -/
theorem mock_env_constructs_mock_devices (env : Env) (conn : ConnectOutcome)
    (hb : Bool) (dl dh : Option ℚ)
    (h : env.bmm_mock_mode = "YES" ∨ env.running_in_nsls2_ci = "YES") :
    (BMMMotor_init env conn).is_mock = true ∧
    (XAFSMotor_init env conn dl dh).is_mock = true ∧
    (FMBOMotor_init env conn).is_mock = true ∧
    (EndStationMotor_init env conn).is_mock = true ∧
    (EncodedMotor_init env conn).is_mock = true ∧
    (BMMOpticsBase_init env conn).is_mock = true ∧
    (BMMMirror_init env conn hb).is_mock = true ∧
    (BMMDCM_init env conn).is_mock = true ∧
    (BMMSlits_init env conn).is_mock = true ∧
    (BMMShutter_init env conn).is_mock = true ∧
    (BMMTemperatureBase_init env conn).is_mock = true ∧
    (BMMLakeShore331_init env conn).is_mock = true ∧
    (BMMDetectorBase_init env conn).is_mock = true ∧
    (BMMSampleEnvironmentBase_init env conn).is_mock = true := by
  have hm : mock_mode_detect env = true := by
    rcases h with h | h <;> simp [mock_mode_detect, h]
  have hf : init_mock_flag env conn = true := by simp [init_mock_flag, hm]
  refine ⟨?_, ?_, ?_, ?_, ?_, ?_, ?_, ?_, ?_, ?_, ?_, ?_, ?_, ?_⟩ <;>
    simp [BMMMotor_init, XAFSMotor_init, FMBOMotor_init, EndStationMotor_init,
      EncodedMotor_init, BMMOpticsBase_init, BMMMirror_init, BMMDCM_init,
      BMMSlits_init, BMMShutter_init, BMMTemperatureBase_init,
      BMMLakeShore331_init, BMMDetectorBase_init,
      BMMSampleEnvironmentBase_init, MotorState.is_mock, OpticsState.is_mock,
      MirrorState.is_mock, DCMState.is_mock, SlitsState.is_mock,
      ShutterState.is_mock, TempBaseState.is_mock, LakeShoreState.is_mock,
      DetectorBaseState.is_mock, SampleEnvBaseState.is_mock, hf]

/-- Witness for C7 at `BMM_MOCK_MODE=YES` with a successful connection
outcome. -/
theorem mock_env_constructs_mock_devices_witness :
    (env_mock.bmm_mock_mode = "YES" ∨ env_mock.running_in_nsls2_ci = "YES") ∧
    ((BMMMotor_init env_mock ConnectOutcome.ok).is_mock = true ∧
     (XAFSMotor_init env_mock ConnectOutcome.ok none none).is_mock = true ∧
     (FMBOMotor_init env_mock ConnectOutcome.ok).is_mock = true ∧
     (EndStationMotor_init env_mock ConnectOutcome.ok).is_mock = true ∧
     (EncodedMotor_init env_mock ConnectOutcome.ok).is_mock = true ∧
     (BMMOpticsBase_init env_mock ConnectOutcome.ok).is_mock = true ∧
     (BMMMirror_init env_mock ConnectOutcome.ok false).is_mock = true ∧
     (BMMDCM_init env_mock ConnectOutcome.ok).is_mock = true ∧
     (BMMSlits_init env_mock ConnectOutcome.ok).is_mock = true ∧
     (BMMShutter_init env_mock ConnectOutcome.ok).is_mock = true ∧
     (BMMTemperatureBase_init env_mock ConnectOutcome.ok).is_mock = true ∧
     (BMMLakeShore331_init env_mock ConnectOutcome.ok).is_mock = true ∧
     (BMMDetectorBase_init env_mock ConnectOutcome.ok).is_mock = true ∧
     (BMMSampleEnvironmentBase_init env_mock ConnectOutcome.ok).is_mock = true) :=
  ⟨Or.inl rfl,
   mock_env_constructs_mock_devices env_mock ConnectOutcome.ok false none none
     (Or.inl rfl)⟩


/-- Propagation of the first failure through the position comprehension:
`List.mapM` over `Except` fails exactly when the function fails on some
element of the list. -/
theorem isErr_mapM (f : ℚ → Except PyErr ℚ) (es : List ℚ) :
    isErr (es.mapM f) = true ↔ ∃ x ∈ es, isErr (f x) = true := by
  induction es with
  | nil =>
    rw [show ([] : List ℚ).mapM f = (Except.ok [] : Except PyErr (List ℚ)) from rfl]
    simp [isErr]
  | cons x xs ih =>
    cases hf : f x with
    | error e =>
      refine iff_of_true ?_ ⟨x, List.mem_cons_self x xs, by rw [hf]; rfl⟩
      rw [List.mapM_cons, hf]
      rfl
    | ok y =>
      cases hm : xs.mapM f with
      | error e =>
        have hv : (x :: xs).mapM f = Except.error e := by
          rw [List.mapM_cons, hf, hm]
          rfl
        rw [hv]
        have hr : ∃ z ∈ xs, isErr (f z) = true := ih.mp (by rw [hm]; rfl)
        refine iff_of_true rfl ?_
        obtain ⟨z, hz, hfz⟩ := hr
        exact ⟨z, List.mem_cons_of_mem x hz, hfz⟩
      | ok ys =>
        have hv : (x :: xs).mapM f = Except.ok (y :: ys) := by
          rw [List.mapM_cons, hf, hm]
          rfl
        rw [hv]
        refine iff_of_false (by simp [isErr]) ?_
        rintro ⟨z, hz, hfz⟩
        rcases List.mem_cons.mp hz with rfl | hz2
        · rw [hf] at hfz
          exact absurd hfz (by simp [isErr])
        · exact absurd (ih.mpr ⟨z, hz2, hfz⟩) (by rw [hm]; simp [isErr])

/-- Error characterisation of `xafs_scan`: it fails exactly when the
length check fires, or the energy list is empty (so `min` raises), or the
position comprehension raises. -/
theorem isErr_xafs_scan (conv : Option (ℚ → Except PyErr ℚ)) (es : List ℚ)
    (dl : Option (List ℚ)) :
    isErr (xafs_scan conv es dl) = true ↔
      es.length ≠ (default_dwell es dl).length ∨ es = [] ∨
        isErr (position_list conv es) = true := by
  unfold xafs_scan
  by_cases hc : es.length ≠ (default_dwell es dl).length
  · rw [if_pos hc]
    simp [isErr, hc]
  · rw [if_neg hc]
    cases es with
    | nil =>
      simp only [pymin, pymax]
      simp [isErr, hc]
    | cons x xs =>
      simp only [pymin, pymax]
      cases hpl : position_list conv (x :: xs) with
      | ok pos =>
        simp [hpl, isErr, hc]
        exact not_ne_iff.mp hc
      | error e => simp [hpl, isErr, hc]

/-- Claim C9 (amended): `xafs_scan` raises iff an explicit dwell list with
mismatched length is supplied, or the energy list is empty (the metadata
step `min(energy_list)` raises), or the motor's `energy_to_bragg` raises on
some energy in the list; with the dwell list omitted it is defaulted to
`[1.0] * len(energy_list)`, and any error then raised comes from `min` on
the empty list or from the conversion — never from the length check. -/
theorem xafs_scan_valueerror_iff (conv : Option (ℚ → Except PyErr ℚ))
    (es : List ℚ) (dl : Option (List ℚ)) :
    (isErr (xafs_scan conv es dl) = true ↔
      (∃ d, dl = some d ∧ d.length ≠ es.length) ∨ es = [] ∨
        (∃ f, conv = some f ∧ ∃ x ∈ es, isErr (f x) = true)) ∧
    (∀ e, xafs_scan conv es none = Except.error e →
      (es = [] ∧ e = PyErr.valueError "min() arg is an empty sequence") ∨
      (∃ f, conv = some f ∧ es.mapM f = Except.error e)) ∧
    (∀ r, xafs_scan conv es none = Except.ok r →
      r.dwelltimes = List.replicate es.length 1) := by
  refine ⟨?_, ?_, ?_⟩
  · rw [isErr_xafs_scan]
    have h1 : es.length ≠ (default_dwell es dl).length ↔
        ∃ d, dl = some d ∧ d.length ≠ es.length := by
      cases dl with
      | none => simp [default_dwell]
      | some d =>
        simp only [default_dwell]
        constructor
        · intro h
          exact ⟨d, rfl, fun h2 => h h2.symm⟩
        · rintro ⟨d1, hd1, hne⟩
          injection hd1 with hd1
          rw [hd1]
          exact fun h2 => hne h2.symm
    have h2 : isErr (position_list conv es) = true ↔
        ∃ f, conv = some f ∧ ∃ x ∈ es, isErr (f x) = true := by
      cases conv with
      | none => simp [position_list, isErr]
      | some f =>
        rw [show position_list (some f) es = es.mapM f from rfl, isErr_mapM]
        constructor
        · intro h
          exact ⟨f, rfl, h⟩
        · rintro ⟨f1, hf1, h⟩
          injection hf1 with hf1
          rw [hf1]
          exact h
    rw [h1, h2]
  · intro e he
    have hc : ¬(es.length ≠ (default_dwell es none).length) := by
      simp [default_dwell]
    unfold xafs_scan at he
    rw [if_neg hc] at he
    cases es with
    | nil =>
      simp only [pymin, pymax] at he
      left
      refine ⟨rfl, ?_⟩
      injection he with h
      exact h.symm
    | cons x xs =>
      simp only [pymin, pymax] at he
      cases conv with
      | none =>
        simp only [position_list] at he
        exact absurd he (by simp)
      | some f =>
        right
        refine ⟨f, rfl, ?_⟩
        cases hm : (x :: xs).mapM f with
        | ok ys =>
          simp only [show position_list (some f) (x :: xs) = (x :: xs).mapM f from rfl,
            hm] at he
          exact absurd he (by simp)
        | error e1 =>
          simp only [show position_list (some f) (x :: xs) = (x :: xs).mapM f from rfl,
            hm] at he
          injection he with h
          rw [h]
  · intro r hr
    have hc : ¬(es.length ≠ (default_dwell es none).length) := by
      simp [default_dwell]
    unfold xafs_scan at hr
    rw [if_neg hc] at hr
    cases es with
    | nil =>
      simp only [pymin, pymax] at hr
      exact absurd hr (by simp)
    | cons x xs =>
      simp only [pymin, pymax] at hr
      cases hpl : position_list conv (x :: xs) with
      | ok pos =>
        simp only [hpl] at hr
        injection hr with hr
        rw [← hr]
        rfl
      | error e =>
        simp only [hpl] at hr
        exact absurd hr (by simp)

/-- Counterexample to claim C9 as stated: a `ValueError` is raised without
any mismatched explicit dwell list — from `min(energy_list)` on an empty
energy list, and from the motor's `energy_to_bragg` conversion on an
out-of-range energy (as the repository's DCM raises at 1000 eV on the
`"111"` reflection). -/
theorem xafs_scan_raises_without_dwell_mismatch :
    xafs_scan none [] none
      = Except.error (PyErr.valueError "min() arg is an empty sequence") ∧
    xafs_scan
        (some fun _ => Except.error
          (PyErr.valueError "Energy 1000 eV not achievable with 111 reflection"))
        [1000] none
      = Except.error
          (PyErr.valueError "Energy 1000 eV not achievable with 111 reflection") :=
  ⟨rfl, rfl⟩

/-- Claim C10: `xafs_scan` converts energies to motor positions only
conditionally — on every successful run, when the energy motor has an
`energy_to_bragg` method the position list handed to `list_scan` is the
output of the comprehension `[energy_to_bragg(e) for e in energy_list]`
(which therefore succeeded), and otherwise the energy list is passed
through unchanged. -/
theorem xafs_scan_position_lists (f : ℚ → Except PyErr ℚ) (es : List ℚ)
    (dl : Option (List ℚ)) (r1 r2 : ScanRun)
    (h1 : xafs_scan (some f) es dl = Except.ok r1)
    (h2 : xafs_scan none es dl = Except.ok r2) :
    es.mapM f = Except.ok r1.positions ∧ r2.positions = es := by
  have key : ∀ c : Option (ℚ → Except PyErr ℚ), ∀ r : ScanRun,
      xafs_scan c es dl = Except.ok r →
        position_list c es = Except.ok r.positions := by
    intro c r h
    unfold xafs_scan at h
    by_cases hc : es.length ≠ (default_dwell es dl).length
    · rw [if_pos hc] at h
      cases h
    · rw [if_neg hc] at h
      cases es with
      | nil =>
        simp only [pymin, pymax] at h
        exact absurd h (by simp)
      | cons x xs =>
        simp only [pymin, pymax] at h
        cases hpl : position_list c (x :: xs) with
        | ok pos =>
          simp only [hpl] at h
          injection h with h
          rw [← h]
        | error e =>
          simp only [hpl] at h
          exact absurd h (by simp)
  have k2 : Except.ok (ε := PyErr) es = Except.ok r2.positions := key none r2 h2
  refine ⟨key (some f) r1 h1, ?_⟩
  injection k2 with k2
  exact k2.symm

/-- Witness for C10 at the one-point energy list `[8000]` and a conversion
that succeeds there. -/
theorem xafs_scan_position_lists_witness :
    [(8000 : ℚ)].mapM (fun x => (Except.ok x : Except PyErr ℚ))
      = Except.ok
          ({ md := { plan_name := "xafs_scan", energy_points := 1,
                     energy_start := 8000, energy_stop := 8000 }
             dwelltimes := [1], positions := [8000] } : ScanRun).positions ∧
    ({ md := { plan_name := "xafs_scan", energy_points := 1,
               energy_start := 8000, energy_stop := 8000 }
       dwelltimes := [1], positions := [8000] } : ScanRun).positions
        = [(8000 : ℚ)] :=
  xafs_scan_position_lists (fun x => Except.ok x) [8000] none
    { md := { plan_name := "xafs_scan", energy_points := 1,
              energy_start := 8000, energy_stop := 8000 }
      dwelltimes := [1], positions := [8000] }
    { md := { plan_name := "xafs_scan", energy_points := 1,
              energy_start := 8000, energy_stop := 8000 }
      dwelltimes := [1], positions := [8000] }
    rfl rfl

/-- Membership characterisation of the `np.arange` progression with a
positive step: the list holds exactly the points `start + i * step` that
lie below `stop` — the half-open arithmetic range `[start, stop)`. -/
theorem mem_arange_iff {start stop step : ℚ} (hstep : 0 < step) (x : ℚ) :
    x ∈ arange_points start stop step ↔
      ∃ i : ℕ, x = start + (i : ℚ) * step ∧ x < stop := by
  unfold arange_points
  rw [List.mem_map]
  constructor
  · rintro ⟨i, hi, rfl⟩
    rw [List.mem_range] at hi
    refine ⟨i, rfl, ?_⟩
    have h1 : (i : ℤ) < Int.ceil ((stop - start) / step) := Int.lt_toNat.mp hi
    have h2 : (i : ℚ) < (stop - start) / step := by
      exact_mod_cast Int.lt_ceil.mp h1
    have h3 : (i : ℚ) * step < stop - start := (lt_div_iff₀ hstep).mp h2
    linarith
  · rintro ⟨i, rfl, hlt⟩
    refine ⟨i, ?_, rfl⟩
    rw [List.mem_range]
    have h3 : (i : ℚ) * step < stop - start := by linarith
    have h2 : (i : ℚ) < (stop - start) / step := (lt_div_iff₀ hstep).mpr h3
    have h1 : (i : ℤ) < Int.ceil ((stop - start) / step) := by
      rw [Int.lt_ceil]
      exact_mod_cast h2
    exact Int.lt_toNat.mpr h1

/-- Claim C3 (amended): for positive region steps, `xafs_step_scan` builds
its energy point list as the concatenation, in order, of the three
half-open arithmetic ranges `[start, stop)` (pre-edge, edge, post-edge),
hands exactly that list to `xafs_scan`, and — whenever that delegation
succeeds — records the three region lengths and a `total_points` equal to
their sum in its metadata, propagating the error otherwise. -/
theorem xafs_step_scan_builds_regions (conv : Option (ℚ → Except PyErr ℚ))
    (ps pe pstep e1 e2 estep q1 q2 qstep : ℚ)
    (hp : 0 < pstep) (he : 0 < estep) (hq : 0 < qstep) :
    half_open_range ps pe pstep (arange_points ps pe pstep) ∧
    half_open_range e1 e2 estep (arange_points e1 e2 estep) ∧
    half_open_range q1 q2 qstep (arange_points q1 q2 qstep) ∧
    (∀ r, xafs_scan conv
        (arange_points ps pe pstep ++ arange_points e1 e2 estep
          ++ arange_points q1 q2 qstep) none = Except.ok r →
      xafs_step_scan conv ps pe pstep e1 e2 estep q1 q2 qstep =
        Except.ok
          ({ plan_name := "xafs_step_scan"
             pre_edge_points := (arange_points ps pe pstep).length
             edge_points := (arange_points e1 e2 estep).length
             post_edge_points := (arange_points q1 q2 qstep).length
             total_points := (arange_points ps pe pstep).length
               + (arange_points e1 e2 estep).length
               + (arange_points q1 q2 qstep).length }, r)) ∧
    (∀ e, xafs_scan conv
        (arange_points ps pe pstep ++ arange_points e1 e2 estep
          ++ arange_points q1 q2 qstep) none = Except.error e →
      xafs_step_scan conv ps pe pstep e1 e2 estep q1 q2 qstep
        = Except.error e) := by
  have hA : arange ps pe pstep = Except.ok (arange_points ps pe pstep) := by
    unfold arange
    rw [if_neg (ne_of_gt hp)]
  have hB : arange e1 e2 estep = Except.ok (arange_points e1 e2 estep) := by
    unfold arange
    rw [if_neg (ne_of_gt he)]
  have hC : arange q1 q2 qstep = Except.ok (arange_points q1 q2 qstep) := by
    unfold arange
    rw [if_neg (ne_of_gt hq)]
  refine ⟨fun x => mem_arange_iff hp x, fun x => mem_arange_iff he x,
          fun x => mem_arange_iff hq x, ?_, ?_⟩
  · intro r hr
    unfold xafs_step_scan
    simp only [hA, hB, hC]
    rw [hr]
    simp [List.length_append, Nat.add_assoc]
  · intro e herr
    unfold xafs_step_scan
    simp only [hA, hB, hC]
    rw [herr]

/-- Witness for C3 at the concrete regions `[0,2)` by 1, `[2,4)` by 1 and
`[4,6)` by 1. -/
theorem xafs_step_scan_builds_regions_witness :
    ((0 : ℚ) < 1) ∧
    (half_open_range 0 2 1 (arange_points 0 2 1) ∧
     half_open_range 2 4 1 (arange_points 2 4 1) ∧
     half_open_range 4 6 1 (arange_points 4 6 1) ∧
     (∀ r, xafs_scan none
         (arange_points 0 2 1 ++ arange_points 2 4 1
           ++ arange_points 4 6 1) none = Except.ok r →
       xafs_step_scan none 0 2 1 2 4 1 4 6 1 =
         Except.ok
           ({ plan_name := "xafs_step_scan"
              pre_edge_points := (arange_points 0 2 1).length
              edge_points := (arange_points 2 4 1).length
              post_edge_points := (arange_points 4 6 1).length
              total_points := (arange_points 0 2 1).length
                + (arange_points 2 4 1).length
                + (arange_points 4 6 1).length }, r)) ∧
     (∀ e, xafs_scan none
         (arange_points 0 2 1 ++ arange_points 2 4 1
           ++ arange_points 4 6 1) none = Except.error e →
       xafs_step_scan none 0 2 1 2 4 1 4 6 1 = Except.error e)) :=
  ⟨by norm_num,
   xafs_step_scan_builds_regions none 0 2 1 2 4 1 4 6 1
     (by norm_num) (by norm_num) (by norm_num)⟩

/-- Counterexample to claim C3 as stated ("for all region parameters"): at
pre-edge step `0`, `np.arange` raises `ZeroDivisionError`, so no energy
point list and no metadata are constructed at all; and at a negative step
the produced points are not the half-open range `[start, stop)` — the
point `5` belongs to `arange(5, 1, -1)` yet `5 < 1` fails. -/
theorem xafs_step_scan_fails_for_nonpositive_step :
    xafs_step_scan none 0 2 0 2 4 1 4 6 1
      = Except.error (PyErr.zeroDivisionError "division by zero") ∧
    arange 5 1 (-1) = Except.ok (arange_points 5 1 (-1)) ∧
    (5 : ℚ) ∈ arange_points 5 1 (-1) ∧
    ¬((5 : ℚ) < 1) := by
  refine ⟨rfl, ?_, ?_, by norm_num⟩
  · unfold arange
    rw [if_neg (by norm_num)]
  · unfold arange_points
    rw [List.mem_map]
    refine ⟨0, ?_, by norm_num⟩
    rw [List.mem_range]
    rw [show ((1 : ℚ) - 5) / (-1) = ((4 : ℤ) : ℚ) by norm_num]
    rw [Int.ceil_intCast]
    decide


/-- Composing `np.radians` after `np.degrees` is the identity (exact in the
real-number idealisation of the float arithmetic). -/
theorem np_radians_np_degrees (x : ℝ) : np_radians (np_degrees x) = x := by
  unfold np_radians np_degrees
  field_simp

/-- The d-spacing of the mock-constructed DCM, cast to `ℝ`, is the `"111"`
crystal constant `3.13557`. -/
theorem dcm0_d : ((dSpacing dcm0 : ℚ) : ℝ) = 3.13557 := by
  rw [show dSpacing dcm0 = (3.13557 : ℚ) from rfl]
  norm_num

/-- Claim C2: the conversions implement Bragg's law with the fixed crystal
d-spacing of the claim (`3.13557` Å for the `"111"` reflection, `1.6374` Å
otherwise) whenever the device's d-spacing attributes hold the values
`BMMDCM.__init__` assigns: every angle `energy_to_bragg` returns equals
`degrees(arcsin((12398.4/E) / (2*d)))`, and `bragg_to_energy(theta)` equals
`12398.4 / (2*d*sin(radians(theta)))`. -/
theorem conversions_implement_braggs_law (s : DCMState) (energy theta : ℝ)
    (h111 : s.d_spacing_111 = 3.13557) (h311 : s.d_spacing_311 = 1.6374) :
    (∀ t, energy_to_bragg s energy = some t →
        t = np_degrees (Real.arcsin
              ((12398.4 / energy) / (2 * claimed_d_spacing s.current_reflection)))) ∧
    bragg_to_energy s theta =
      12398.4 / (2 * claimed_d_spacing s.current_reflection
        * Real.sin (np_radians theta)) := by
  have hd : ((dSpacing s : ℚ) : ℝ) = claimed_d_spacing s.current_reflection := by
    by_cases hc : s.current_reflection = "111"
    · simp only [dSpacing, claimed_d_spacing, if_pos hc, h111]
      norm_num
    · simp only [dSpacing, claimed_d_spacing, if_neg hc, h311]
      norm_num
  constructor
  · intro t ht
    have heq : energy_to_bragg s energy =
        (if 1 < (12398.4 / energy) / (2 * ((dSpacing s : ℚ) : ℝ)) then none
         else some (np_degrees (Real.arcsin
           ((12398.4 / energy) / (2 * ((dSpacing s : ℚ) : ℝ)))))) := rfl
    rw [heq, hd] at ht
    split at ht
    · cases ht
    · injection ht with ht
      rw [← ht]
  · unfold bragg_to_energy
    rw [hd]

/-- Witness for C2 at the mock-constructed DCM, `E = 8000` eV and
`theta = 10` degrees. -/
theorem conversions_implement_braggs_law_witness :
    (dcm0.d_spacing_111 = 3.13557 ∧ dcm0.d_spacing_311 = 1.6374) ∧
    ((∀ t, energy_to_bragg dcm0 8000 = some t →
        t = np_degrees (Real.arcsin
              ((12398.4 / 8000) / (2 * claimed_d_spacing dcm0.current_reflection)))) ∧
     bragg_to_energy dcm0 10 =
       12398.4 / (2 * claimed_d_spacing dcm0.current_reflection
         * Real.sin (np_radians 10))) :=
  ⟨⟨rfl, rfl⟩, conversions_implement_braggs_law dcm0 8000 10 rfl rfl⟩

/-- Claim C8 (amended): for positive energies, `energy_to_bragg` raises
`ValueError` (returns `none`) exactly when the computed sine exceeds 1 —
when `12398.4/E > 2*d_spacing` — and for every positive `E` with
`12398.4/E ≤ 2*d_spacing` it returns an angle in `(0, 90]` degrees. -/
theorem energy_to_bragg_domain_and_range (s : DCMState) (energy : ℝ)
    (hd : 0 < ((dSpacing s : ℚ) : ℝ)) (hE : 0 < energy) :
    (energy_to_bragg s energy = none ↔
      2 * ((dSpacing s : ℚ) : ℝ) < 12398.4 / energy) ∧
    (12398.4 / energy ≤ 2 * ((dSpacing s : ℚ) : ℝ) →
      ∃ t, energy_to_bragg s energy = some t ∧ 0 < t ∧ t ≤ 90) := by
  have h2d : 0 < 2 * ((dSpacing s : ℚ) : ℝ) := by linarith
  have hw : 0 < 12398.4 / energy := div_pos (by norm_num) hE
  have hiff : (1 < (12398.4 / energy) / (2 * ((dSpacing s : ℚ) : ℝ))) ↔
      2 * ((dSpacing s : ℚ) : ℝ) < 12398.4 / energy := one_lt_div h2d
  have heq : energy_to_bragg s energy =
      (if 1 < (12398.4 / energy) / (2 * ((dSpacing s : ℚ) : ℝ)) then none
       else some (np_degrees (Real.arcsin
         ((12398.4 / energy) / (2 * ((dSpacing s : ℚ) : ℝ)))))) := rfl
  constructor
  · rw [heq]
    by_cases hc : 1 < (12398.4 / energy) / (2 * ((dSpacing s : ℚ) : ℝ))
    · rw [if_pos hc]
      exact iff_of_true rfl (hiff.mp hc)
    · rw [if_neg hc]
      constructor
      · intro h
        exact (Option.some_ne_none _ h).elim
      · intro h
        exact absurd (hiff.mpr h) hc
  · intro h
    have hc : ¬ 1 < (12398.4 / energy) / (2 * ((dSpacing s : ℚ) : ℝ)) := by
      rw [hiff]
      exact not_lt.mpr h
    refine ⟨np_degrees (Real.arcsin
      ((12398.4 / energy) / (2 * ((dSpacing s : ℚ) : ℝ)))), ?_, ?_, ?_⟩
    · rw [heq, if_neg hc]
    · have hspos : 0 < (12398.4 / energy) / (2 * ((dSpacing s : ℚ) : ℝ)) :=
        div_pos hw h2d
      have harc : 0 < Real.arcsin ((12398.4 / energy) / (2 * ((dSpacing s : ℚ) : ℝ))) :=
        Real.arcsin_pos.mpr hspos
      unfold np_degrees
      exact div_pos (by linarith) Real.pi_pos
    · have harc2 : Real.arcsin ((12398.4 / energy) / (2 * ((dSpacing s : ℚ) : ℝ)))
          ≤ Real.pi / 2 := Real.arcsin_le_pi_div_two _
      unfold np_degrees
      rw [div_le_iff₀ Real.pi_pos]
      linarith

/-- Witness for C8 at the mock-constructed DCM and `E = 8000` eV. -/
theorem energy_to_bragg_domain_and_range_witness :
    (0 < ((dSpacing dcm0 : ℚ) : ℝ) ∧ (0 : ℝ) < 8000) ∧
    ((energy_to_bragg dcm0 8000 = none ↔
       2 * ((dSpacing dcm0 : ℚ) : ℝ) < 12398.4 / 8000) ∧
     (12398.4 / (8000 : ℝ) ≤ 2 * ((dSpacing dcm0 : ℚ) : ℝ) →
       ∃ t, energy_to_bragg dcm0 8000 = some t ∧ 0 < t ∧ t ≤ 90)) :=
  ⟨⟨by rw [dcm0_d]; norm_num, by norm_num⟩,
   energy_to_bragg_domain_and_range dcm0 8000 (by rw [dcm0_d]; norm_num)
     (by norm_num)⟩

/-- Counterexample to claim C8 as stated: at `E = -8000` eV the claim's
condition `12398.4/E ≤ 2*d_spacing` holds and no error is raised, but the
returned angle is negative, not in `(0, 90]`. -/
theorem energy_to_bragg_range_fails_for_negative_energy :
    12398.4 / (-8000 : ℝ) ≤ 2 * ((dSpacing dcm0 : ℚ) : ℝ) ∧
    (energy_to_bragg dcm0 (-8000)).isSome = true ∧
    (energy_to_bragg dcm0 (-8000)).getD 0 < 0 := by
  have hsneg : (12398.4 / (-8000 : ℝ)) / (2 * ((dSpacing dcm0 : ℚ) : ℝ)) < 0 := by
    rw [dcm0_d]
    norm_num
  have hnot : ¬ 1 < (12398.4 / (-8000 : ℝ)) / (2 * ((dSpacing dcm0 : ℚ) : ℝ)) := by
    linarith
  have heq : energy_to_bragg dcm0 (-8000) =
      some (np_degrees (Real.arcsin
        ((12398.4 / (-8000 : ℝ)) / (2 * ((dSpacing dcm0 : ℚ) : ℝ))))) := by
    rw [show energy_to_bragg dcm0 (-8000) =
      (if 1 < (12398.4 / (-8000 : ℝ)) / (2 * ((dSpacing dcm0 : ℚ) : ℝ)) then none
       else some (np_degrees (Real.arcsin
         ((12398.4 / (-8000 : ℝ)) / (2 * ((dSpacing dcm0 : ℚ) : ℝ)))))) from rfl]
    rw [if_neg hnot]
  refine ⟨by rw [dcm0_d]; norm_num, by rw [heq]; rfl, ?_⟩
  rw [heq]
  simp only [Option.getD_some]
  have harc : Real.arcsin
      ((12398.4 / (-8000 : ℝ)) / (2 * ((dSpacing dcm0 : ℚ) : ℝ))) < 0 :=
    Real.arcsin_lt_zero.mpr hsneg
  unfold np_degrees
  exact div_neg_of_neg_of_pos (by linarith) Real.pi_pos

/-- Claim C1 (amended): for every positive energy `E` on which
`energy_to_bragg` is defined (`12398.4/E ≤ 2*d_spacing`), the round trip
`bragg_to_energy(energy_to_bragg(E))` differs from `E` by less than 1 eV
(in the exact real model the round trip is exact). -/
theorem energy_round_trip_within_one_ev (s : DCMState) (energy : ℝ)
    (hd : 0 < ((dSpacing s : ℚ) : ℝ)) (hE : 0 < energy)
    (h : 12398.4 / energy ≤ 2 * ((dSpacing s : ℚ) : ℝ)) :
    ∃ t, energy_to_bragg s energy = some t ∧
      |bragg_to_energy s t - energy| < 1 := by
  have h2d : 0 < 2 * ((dSpacing s : ℚ) : ℝ) := by linarith
  have hw : 0 < 12398.4 / energy := div_pos (by norm_num) hE
  have hsle : (12398.4 / energy) / (2 * ((dSpacing s : ℚ) : ℝ)) ≤ 1 :=
    (div_le_one h2d).mpr h
  have hspos : 0 < (12398.4 / energy) / (2 * ((dSpacing s : ℚ) : ℝ)) :=
    div_pos hw h2d
  have heq : energy_to_bragg s energy =
      (if 1 < (12398.4 / energy) / (2 * ((dSpacing s : ℚ) : ℝ)) then none
       else some (np_degrees (Real.arcsin
         ((12398.4 / energy) / (2 * ((dSpacing s : ℚ) : ℝ)))))) := rfl
  refine ⟨np_degrees (Real.arcsin
    ((12398.4 / energy) / (2 * ((dSpacing s : ℚ) : ℝ)))), ?_, ?_⟩
  · rw [heq, if_neg (not_lt.mpr hsle)]
  · have hrt : bragg_to_energy s (np_degrees (Real.arcsin
        ((12398.4 / energy) / (2 * ((dSpacing s : ℚ) : ℝ))))) = energy := by
      unfold bragg_to_energy
      rw [np_radians_np_degrees, Real.sin_arcsin (by linarith) hsle]
      rw [mul_div_cancel₀ _ (ne_of_gt h2d)]
      field_simp
    rw [hrt, sub_self, abs_zero]
    norm_num

/-- Witness for C1 at the mock-constructed DCM and `E = 8000` eV. -/
theorem energy_round_trip_within_one_ev_witness :
    (0 < ((dSpacing dcm0 : ℚ) : ℝ) ∧ (0 : ℝ) < 8000 ∧
     12398.4 / (8000 : ℝ) ≤ 2 * ((dSpacing dcm0 : ℚ) : ℝ)) ∧
    (∃ t, energy_to_bragg dcm0 8000 = some t ∧
      |bragg_to_energy dcm0 t - 8000| < 1) :=
  ⟨⟨by rw [dcm0_d]; norm_num, by norm_num, by rw [dcm0_d]; norm_num⟩,
   energy_round_trip_within_one_ev dcm0 8000 (by rw [dcm0_d]; norm_num)
     (by norm_num) (by rw [dcm0_d]; norm_num)⟩

/-- Counterexample to claim C1 as stated: at `E = -1000` eV the claim's
defining condition `12398.4/E ≤ 2*d_spacing` holds and a value is returned,
but the round trip misses `E` by far more than 1 eV (the sine argument is
below -1; numpy produces NaN there, for which the 1 eV bound is false as
well). -/
theorem energy_round_trip_fails_for_negative_energy :
    12398.4 / (-1000 : ℝ) ≤ 2 * ((dSpacing dcm0 : ℚ) : ℝ) ∧
    (energy_to_bragg dcm0 (-1000)).isSome = true ∧
    1 ≤ |bragg_to_energy dcm0 ((energy_to_bragg dcm0 (-1000)).getD 0) - (-1000)| := by
  have hsle : (12398.4 / (-1000 : ℝ)) / (2 * ((dSpacing dcm0 : ℚ) : ℝ)) ≤ -1 := by
    rw [dcm0_d]
    norm_num
  have hnot : ¬ 1 < (12398.4 / (-1000 : ℝ)) / (2 * ((dSpacing dcm0 : ℚ) : ℝ)) := by
    linarith
  have heq : energy_to_bragg dcm0 (-1000) =
      some (np_degrees (Real.arcsin
        ((12398.4 / (-1000 : ℝ)) / (2 * ((dSpacing dcm0 : ℚ) : ℝ))))) := by
    rw [show energy_to_bragg dcm0 (-1000) =
      (if 1 < (12398.4 / (-1000 : ℝ)) / (2 * ((dSpacing dcm0 : ℚ) : ℝ)) then none
       else some (np_degrees (Real.arcsin
         ((12398.4 / (-1000 : ℝ)) / (2 * ((dSpacing dcm0 : ℚ) : ℝ)))))) from rfl]
    rw [if_neg hnot]
  have harc : Real.arcsin
      ((12398.4 / (-1000 : ℝ)) / (2 * ((dSpacing dcm0 : ℚ) : ℝ))) = -(Real.pi / 2) :=
    Real.arcsin_of_le_neg_one hsle
  have hdeg : np_degrees (-(Real.pi / 2)) = -90 := by
    unfold np_degrees
    field_simp
    ring
  have hrad : np_radians (-90 : ℝ) = -(Real.pi / 2) := by
    unfold np_radians
    ring
  have hbte : bragg_to_energy dcm0 (-90) = 12398.4 / (2 * 3.13557 * -1) := by
    unfold bragg_to_energy
    rw [hrad, Real.sin_neg, Real.sin_pi_div_two, dcm0_d]
  refine ⟨by rw [dcm0_d]; norm_num, by rw [heq]; rfl, ?_⟩
  rw [heq]
  simp only [Option.getD_some]
  rw [harc, hdeg, hbte]
  rw [abs_of_nonpos (by norm_num)]
  norm_num

/-- Claim C4 (amended): neither conversion call mutates the device state,
and the returned value is determined by the numeric argument together with
the crystal configuration the constructor fixes (`current_reflection` and
the two d-spacing attributes): two calls with the same argument on any two
DCM states agreeing on those fields return the same result. -/
theorem dcm_conversion_pure_in_crystal_config (s t : DCMState)
    (energy theta : ℝ)
    (hrefl : s.current_reflection = t.current_reflection)
    (h111 : s.d_spacing_111 = t.d_spacing_111)
    (h311 : s.d_spacing_311 = t.d_spacing_311) :
    (energy_to_bragg_call s energy).2 = s ∧
    (bragg_to_energy_call s theta).2 = s ∧
    (energy_to_bragg_call s energy).1 = (energy_to_bragg_call t energy).1 ∧
    (bragg_to_energy_call s theta).1 = (bragg_to_energy_call t theta).1 := by
  have hd : dSpacing s = dSpacing t := by
    simp only [dSpacing, hrefl, h111, h311]
  refine ⟨rfl, rfl, ?_, ?_⟩
  · unfold energy_to_bragg_call energy_to_bragg
    rw [hd]
  · unfold bragg_to_energy_call bragg_to_energy
    rw [hd]

/-- Witness for C4 at a mock-constructed and a fallback-constructed DCM
(different mock flags, same crystal configuration). -/
theorem dcm_conversion_pure_in_crystal_config_witness :
    (dcm0.current_reflection = dcm_fallback.current_reflection ∧
     dcm0.d_spacing_111 = dcm_fallback.d_spacing_111 ∧
     dcm0.d_spacing_311 = dcm_fallback.d_spacing_311) ∧
    ((energy_to_bragg_call dcm0 8000).2 = dcm0 ∧
     (bragg_to_energy_call dcm0 10).2 = dcm0 ∧
     (energy_to_bragg_call dcm0 8000).1 = (energy_to_bragg_call dcm_fallback 8000).1 ∧
     (bragg_to_energy_call dcm0 10).1 = (bragg_to_energy_call dcm_fallback 10).1) :=
  ⟨⟨rfl, rfl, rfl⟩,
   dcm_conversion_pure_in_crystal_config dcm0 dcm_fallback 8000 10 rfl rfl rfl⟩

/-- Counterexample to claim C4 as stated: the result is not determined by
the numeric argument alone — two DCM states differing only in
`current_reflection` give different results at `E = 2000` eV (the `"111"`
state returns an angle, the `"311"` state raises). -/
theorem dcm_conversion_differs_across_reflections :
    (energy_to_bragg_call dcm0 2000).1 ≠ (energy_to_bragg_call dcm311 2000).1 := by
  have h0 : ¬ 1 < (12398.4 / (2000 : ℝ)) / (2 * ((dSpacing dcm0 : ℚ) : ℝ)) := by
    rw [dcm0_d]
    norm_num
  have h1 : 1 < (12398.4 / (2000 : ℝ)) / (2 * ((dSpacing dcm311 : ℚ) : ℝ)) := by
    rw [show dSpacing dcm311 = (1.6374 : ℚ) from rfl]
    norm_num
  have e0 : (energy_to_bragg_call dcm0 2000).1 =
      some (np_degrees (Real.arcsin
        ((12398.4 / (2000 : ℝ)) / (2 * ((dSpacing dcm0 : ℚ) : ℝ))))) := by
    show energy_to_bragg dcm0 2000 = _
    rw [show energy_to_bragg dcm0 2000 =
      (if 1 < (12398.4 / (2000 : ℝ)) / (2 * ((dSpacing dcm0 : ℚ) : ℝ)) then none
       else some (np_degrees (Real.arcsin
         ((12398.4 / (2000 : ℝ)) / (2 * ((dSpacing dcm0 : ℚ) : ℝ)))))) from rfl]
    rw [if_neg h0]
  have e1 : (energy_to_bragg_call dcm311 2000).1 = none := by
    show energy_to_bragg dcm311 2000 = none
    rw [show energy_to_bragg dcm311 2000 =
      (if 1 < (12398.4 / (2000 : ℝ)) / (2 * ((dSpacing dcm311 : ℚ) : ℝ)) then none
       else some (np_degrees (Real.arcsin
         ((12398.4 / (2000 : ℝ)) / (2 * ((dSpacing dcm311 : ℚ) : ℝ)))))) from rfl]
    rw [if_pos h1]
  intro hcon
  rw [e0, e1] at hcon
  exact Option.noConfusion hcon

end BMM
